import Mathlib

/-!
Shallow embedding of the orchestration/aggregation core of the MindfulPages
journaling server, together with theorems settling the frozen claims about it.

Sources embedded:
  * server/storage.ts   (`DatabaseStorage`: updateUserStats, deleteJournalEntry,
    getWeeklyInsight, createWeeklyInsight, deleteWeeklyInsight,
    getJournalEntriesByDateRange, getJournalEntry)
  * server/fallbacks.ts (detectMoodFromKeywords)
  * server/gemini.ts    (analyzeSentiment, extractThemes, generateWeeklyInsight)
  * server/routes.ts    (POST /api/journal-entries, PATCH /api/journal-entries/:id,
    DELETE /api/journal-entries/:id, GET /api/insights/weekly)

Modelling conventions:
  * timestamps are Int milliseconds since the epoch; the JS `setHours(0,0,0,0)`
    day truncation is modelled zonelessly as flooring to a multiple of 86400000
    (Int `/` is Euclidean division, which for a positive divisor is `Math.floor`);
  * the external AI provider is a parameter of type `Except Unit α`: `.error ()`
    stands for any thrown/rethrown provider failure (network error, timeout, or
    JSON that fails to parse), `.ok raw` for a successfully parsed response whose
    individual fields may still be absent;
  * JavaScript `x || default` on strings/numbers is modelled by `jsOrS` / `jsOrQ`
    (absent OR falsy value falls back to the default);
  * decimal DB columns (sentiment scores) are modelled as ℚ instead of the
    string representation drizzle returns; only set/unset and numeric value
    matter to the claims.
-/

namespace MindfulPages

/-- Milliseconds per calendar day, the constant 1000*60*60*24 from the source. -/
def msPerDay : Int := 86400000

/-- Truncation of a timestamp to midnight of its calendar day, modelling
`date.setHours(0, 0, 0, 0)` in a zoneless calendar. `/` on Int is Euclidean
division, i.e. `Math.floor` for the positive divisor `msPerDay`. -/
def dayTrunc (t : Int) : Int := msPerDay * (t / msPerDay)

/-- Model of `DatabaseStorage.isToday` (storage.ts): the truncated entry day
equals the truncated current day. -/
def isToday (now d : Int) : Prop := d = dayTrunc now

instance (now d : Int) : Decidable (isToday now d) :=
  inferInstanceAs (Decidable (d = dayTrunc now))

/-- Model of `DatabaseStorage.isYesterday` (storage.ts): the truncated entry day
equals the truncated current day minus one day. -/
def isYesterday (now d : Int) : Prop := d = dayTrunc now - msPerDay

instance (now d : Int) : Decidable (isYesterday now d) :=
  inferInstanceAs (Decidable (d = dayTrunc now - msPerDay))

/-- A stored row of the `journal_entries` table (shared/schema.ts). Nullable
columns are `Option`; `wordCount` and `isCompleted` have DB defaults 0/false so
a stored row always carries a value for `isCompleted`. -/
structure JournalEntry where
  id : String
  userId : String
  content : String
  wordCount : Option Nat
  sentimentScore : Option ℚ
  sentimentLabel : Option String
  mood : Option String
  themes : Option (List String)
  isCompleted : Bool
  createdAt : Int
deriving DecidableEq

/-- The comparator `(a, b) => new Date(b.createdAt).getTime() - new Date(a.createdAt).getTime()`
used in `updateUserStats`: descending by creation time. -/
def createdDescRel (a b : JournalEntry) : Prop := b.createdAt ≤ a.createdAt

instance : DecidableRel createdDescRel :=
  fun a b => inferInstanceAs (Decidable (b.createdAt ≤ a.createdAt))

instance : IsTotal JournalEntry createdDescRel :=
  ⟨fun a b => le_total b.createdAt a.createdAt⟩

instance : IsTrans JournalEntry createdDescRel :=
  ⟨fun _ _ _ hab hbc => le_trans hbc hab⟩

/-- The `.sort(...)` call of `updateUserStats`, as a stable insertion sort on
the descending-by-creation-time comparator. -/
def sortByCreatedAtDesc (l : List JournalEntry) : List JournalEntry :=
  l.insertionSort createdDescRel

/-- The mutable locals of the streak walk in `updateUserStats` (storage.ts):
`currentStreak`, `longestStreak`, `streakCount`, `lastDate`. -/
structure StreakState where
  currentStreak : Nat
  longestStreak : Nat
  streakCount : Nat
  lastDate : Option Int
deriving DecidableEq

/-- Initial values of the streak walk locals: all zero, `lastDate = null`. -/
def initStreak : StreakState := ⟨0, 0, 0, none⟩

/-- One iteration of the `for (const entry of completedEntries)` loop of
`updateUserStats` (storage.ts lines 228-255), translated branch by branch. -/
def streakStep (now : Int) (st : StreakState) (e : JournalEntry) : StreakState :=
  let entryDate := dayTrunc e.createdAt
  match st.lastDate with
  | none =>
    { st with
      streakCount := 1
      currentStreak :=
        if isToday now entryDate ∨ isYesterday now entryDate then 1 else st.currentStreak
      lastDate := some entryDate }
  | some lastDate =>
    let daysDiff := (lastDate - entryDate) / msPerDay
    if daysDiff = 1 then
      let streakCount := st.streakCount + 1
      { st with
        streakCount := streakCount
        currentStreak :=
          if st.currentStreak = 0 ∧ (isToday now entryDate ∨ isYesterday now entryDate) then
            streakCount
          else st.currentStreak
        lastDate := some entryDate }
    else
      { st with
        longestStreak := max st.longestStreak st.streakCount
        streakCount := 1
        lastDate := some entryDate }

/-- The full streak walk: fold of `streakStep` over the sorted completed
entries, starting from `initStreak`. -/
def streakWalk (now : Int) (l : List JournalEntry) : StreakState :=
  l.foldl (streakStep now) initStreak

/-- The aggregate columns of the `users` table written by `updateUserStats`. -/
structure UserStats where
  totalEntries : Nat
  wordsWritten : Nat
  currentStreak : Nat
  longestStreak : Nat
  lastEntryDate : Option Int
deriving DecidableEq

/-- Model of `DatabaseStorage.updateUserStats` (storage.ts lines 209-270) as a
pure recomputation from a user's full entry list at current time `now`.
Note that `wordsWritten` reduces over `entries` (all rows), while
`totalEntries` and the streak walk use only the completed rows. -/
def updateUserStats (entries : List JournalEntry) (now : Int) : UserStats :=
  let totalEntries := (entries.filter (fun e => e.isCompleted)).length
  let wordsWritten := entries.foldl (fun sum e => sum + e.wordCount.getD 0) 0
  let completedEntries := sortByCreatedAtDesc (entries.filter (fun e => e.isCompleted))
  let st := streakWalk now completedEntries
  { totalEntries := totalEntries
    wordsWritten := wordsWritten
    currentStreak := st.currentStreak
    longestStreak := max st.longestStreak st.streakCount
    lastEntryDate := completedEntries.head?.map (fun e => e.createdAt) }

/-! ### Fallback analyzer (server/fallbacks.ts) -/

/-- Lowercasing of `content.toLowerCase()`, kept as a character list so the
substring scan below stays kernel-computable. -/
def lowerCase (s : String) : List Char := s.toList.map Char.toLower

/-- JavaScript `text.includes(word)`: `word` occurs contiguously in `text`. -/
def jsIncludes (text : List Char) (word : String) : Bool :=
  text.tails.any fun t => word.toList.isPrefixOf t

/-- The positive keyword lexicon of `detectMoodFromKeywords`. -/
def positiveWords : List String :=
  ["happy", "excited", "good", "great", "amazing", "wonderful", "love", "joy",
   "grateful", "blessed", "awesome", "fantastic", "pleased", "delighted", "optimistic"]

/-- The negative keyword lexicon of `detectMoodFromKeywords`. -/
def negativeWords : List String :=
  ["sad", "angry", "frustrated", "upset", "disappointed", "worried", "anxious",
   "stressed", "terrible", "awful", "hate", "depressed", "annoyed", "irritated",
   "overwhelmed"]

/-- The neutral keyword lexicon of `detectMoodFromKeywords`. -/
def neutralWords : List String :=
  ["okay", "fine", "normal", "regular", "usual", "average"]

/-- The `words.forEach(word => { if (text.includes(word)) count++ })` pattern:
each lexicon word contributes at most 1, however often it occurs in the text. -/
def countMatches (text : List Char) (words : List String) : Nat :=
  words.foldl (fun count w => if jsIncludes text w then count + 1 else count) 0

/-- Model of `detectMoodFromKeywords` (fallbacks.ts lines 3-38), the spec's
`classifyMood`. -/
def detectMoodFromKeywords (content : String) : String :=
  let text := lowerCase content
  let positiveCount := countMatches text positiveWords
  let negativeCount := countMatches text negativeWords
  let neutralCount := countMatches text neutralWords
  if positiveCount > negativeCount ∧ positiveCount > neutralCount then "positive"
  else if negativeCount > positiveCount ∧ negativeCount > neutralCount then "negative"
  else if negativeCount > 0 ∧ positiveCount = 0 then "anxious"
  else if positiveCount > 0 ∧ negativeCount = 0 then "content"
  else "neutral"

/-! ### AI analysis client (server/gemini.ts) -/

/-- JavaScript `x || default` for an optional string: absent or empty falls
back to the default. -/
def jsOrS (x : Option String) (d : String) : String :=
  match x with
  | none => d
  | some s => if s = "" then d else s

/-- JavaScript `x || default` for an optional number: absent or zero falls
back to the default. -/
def jsOrQ (x : Option ℚ) (d : ℚ) : ℚ :=
  match x with
  | none => d
  | some v => if v = 0 then d else v

/-- The parsed JSON a successful Gemini sentiment call may return; every field
can be missing from the model's output. -/
structure RawSentiment where
  score : Option ℚ
  label : Option String
  mood : Option String
  confidence : Option ℚ
deriving DecidableEq

/-- The `SentimentResult` interface of gemini.ts. -/
structure SentimentResult where
  score : ℚ
  label : String
  mood : String
  confidence : ℚ
deriving DecidableEq

/-- Model of `analyzeSentiment` (gemini.ts lines 34-77). A provider failure is
caught, logged and RETHROWN (`throw error`), so it propagates to the caller;
on success the fields are defaulted and clamped exactly as in the source. -/
def analyzeSentiment (provider : Except Unit RawSentiment) : Except Unit SentimentResult :=
  match provider with
  | .error e => .error e
  | .ok raw =>
    .ok
      { score := max (-1) (min 1 (jsOrQ raw.score 0))
        label := jsOrS raw.label "neutral"
        mood := jsOrS raw.mood "neutral"
        confidence := max 0 (min 1 (jsOrQ raw.confidence (1 / 2))) }

/-- Model of `extractThemes` (gemini.ts lines 131-172) over the contents of the
entries passed in: empty input short-circuits to `[]` without consulting the
provider; otherwise a provider failure is rethrown, and on success the parsed
`themes` field is defaulted to `[]` when absent. -/
def extractThemes (entries : List String) (provider : Except Unit (Option (List String))) :
    Except Unit (List String) :=
  if entries.isEmpty then .ok []
  else provider.map fun themes => themes.getD []

/-! ### Entry pipeline (server/routes.ts) -/

/-- Word counting in both entry routes:
`content.trim().split(/\s+/).filter(word => word.length > 0).length`, i.e. the
number of maximal non-whitespace runs. Implemented structurally over the
character list (the Bool argument tracks whether a run is open). -/
def countWordsAux : List Char → Bool → Nat
  | [], _ => 0
  | c :: cs, inWord =>
    if c.isWhitespace then countWordsAux cs false
    else (if inWord then 0 else 1) + countWordsAux cs true

/-- Word count of a content string. -/
def countWords (s : String) : Nat := countWordsAux s.toList false

/-- The body accepted by `insertJournalEntrySchema` (shared/schema.ts): all
journal-entry columns except id/createdAt/updatedAt, each optional unless
required by the table. -/
structure InsertEntry where
  userId : String
  content : String
  wordCount : Option Nat := none
  sentimentScore : Option ℚ := none
  sentimentLabel : Option String := none
  mood : Option String := none
  themes : Option (List String) := none
  isCompleted : Option Bool := none
deriving DecidableEq

/-- The catch block of the POST route (routes.ts lines 296-303): on any AI
failure, mood comes from `detectMoodFromKeywords`, the sentiment score is zeroed,
the label repeats the fallback mood and themes are emptied. -/
def fallbackEnrich (d : InsertEntry) : InsertEntry :=
  let mood := detectMoodFromKeywords d.content
  { d with
    mood := some mood
    sentimentScore := some 0
    sentimentLabel := some mood
    themes := some [] }

/-- Materialization of an insert body into a stored row
(`db.insert(journalEntries).values(entry).returning()`): DB defaults 0 / false
apply to `wordCount` / `isCompleted` when the body omits them. -/
def materializeEntry (d : InsertEntry) (newId : String) (now : Int) : JournalEntry :=
  { id := newId
    userId := d.userId
    content := d.content
    wordCount := some (d.wordCount.getD 0)
    sentimentScore := d.sentimentScore
    sentimentLabel := d.sentimentLabel
    mood := d.mood
    themes := d.themes
    isCompleted := d.isCompleted.getD false
    createdAt := now }

/-- Model of the POST /api/journal-entries handler (routes.ts lines 265-312).
`recent` is the contents of the prior completed entries fetched for theme
extraction; `sentProv` and `themesProv` are the outcomes of the two provider
calls. For substantial content (more than 10 words) the handler tries Gemini
sentiment then themes, and on a failure of either call falls back via
`fallbackEnrich`; short content skips analysis entirely. The enriched body is
then persisted. -/
def postJournalEntry (body : InsertEntry) (recent : List String)
    (sentProv : Except Unit RawSentiment) (themesProv : Except Unit (Option (List String)))
    (newId : String) (now : Int) : JournalEntry :=
  let wordCount := countWords body.content
  let d0 := { body with wordCount := some wordCount }
  let d1 :=
    if 10 < wordCount then
      match analyzeSentiment sentProv with
      | .ok s =>
        let d := { d0 with
          sentimentScore := some s.score
          sentimentLabel := some s.label
          mood := some s.mood }
        match extractThemes (body.content :: recent) themesProv with
        | .ok themes => { d with themes := some themes }
        | .error _ => fallbackEnrich d
      | .error _ => fallbackEnrich d0
    else d0
  materializeEntry d1 newId now

/-- A `Partial<InsertJournalEntry>` PATCH body: any subset of the columns. -/
structure UpdateData where
  content : Option String := none
  wordCount : Option Nat := none
  sentimentScore : Option ℚ := none
  sentimentLabel : Option String := none
  mood : Option String := none
  themes : Option (List String) := none
  isCompleted : Option Bool := none
deriving DecidableEq

/-- The drizzle `.set({ ...entry })` merge of `updateJournalEntry`
(storage.ts lines 86-98): columns present in the partial body overwrite the
stored row, absent columns keep their stored values. -/
def applyUpdate (e : JournalEntry) (u : UpdateData) : JournalEntry :=
  { e with
    content := u.content.getD e.content
    wordCount := match u.wordCount with | some w => some w | none => e.wordCount
    sentimentScore := match u.sentimentScore with | some s => some s | none => e.sentimentScore
    sentimentLabel := match u.sentimentLabel with | some s => some s | none => e.sentimentLabel
    mood := match u.mood with | some m => some m | none => e.mood
    themes := match u.themes with | some t => some t | none => e.themes
    isCompleted := match u.isCompleted with | some b => b | none => e.isCompleted }

/-- Model of the PATCH /api/journal-entries/:id handler (routes.ts lines
358-391) after the ownership check, applied to the stored row `existing`.
When the body carries (truthy) content, the word count is recomputed; when the
new content is substantial (more than 10 words) and actually changed,
`analyzeSentiment` is called WITHOUT a surrounding try/catch, so a provider
failure propagates out of the handler (`Except.error`), aborting the update.
Otherwise the merged row is persisted. -/
def patchJournalEntry (existing : JournalEntry) (body : UpdateData)
    (sentProv : Except Unit RawSentiment) : Except Unit JournalEntry :=
  let prepared : Except Unit UpdateData :=
    match body.content with
    | some c =>
      if c ≠ "" then
        let wordCount := countWords c
        let b := { body with wordCount := some wordCount }
        if 10 < wordCount ∧ c ≠ existing.content then
          match analyzeSentiment sentProv with
          | .ok s =>
            .ok { b with
              sentimentScore := some s.score
              sentimentLabel := some s.label
              mood := some s.mood }
          | .error e => .error e
        else .ok b
      else .ok body
    | none => .ok body
  prepared.map (applyUpdate existing)

/-! ### Storage state, DELETE route (server/storage.ts, server/routes.ts) -/

/-- A stored row of the `weekly_insights` table (shared/schema.ts). Row ids are
modelled as Nats handed out by a store counter. -/
structure WeeklyInsight where
  id : Nat
  userId : String
  weekStart : Int
  weekEnd : Int
  summary : String
  keyThemes : List String
  moodTrend : String
  averageSentiment : ℚ
  entryCount : Option Nat
deriving DecidableEq

/-- An insert body for `createWeeklyInsight`: all columns except the id. -/
structure InsertWeeklyInsight where
  userId : String
  weekStart : Int
  weekEnd : Int
  summary : String
  keyThemes : List String
  moodTrend : String
  averageSentiment : ℚ
  entryCount : Option Nat
deriving DecidableEq

/-- The backing store as seen by the routes under scrutiny: the journal-entry
rows, the per-user aggregate columns, the weekly-insight rows, plus the id
counter for newly inserted insights. -/
structure DB where
  entries : List JournalEntry
  users : List (String × UserStats)
  insights : List WeeklyInsight
  nextInsightId : Nat
deriving DecidableEq

/-- `DatabaseStorage.getJournalEntry` (storage.ts lines 104-110): first row
with the given id. -/
def getJournalEntry (db : DB) (id : String) : Option JournalEntry :=
  db.entries.find? fun e => e.id == id

/-- Model of `DatabaseStorage.deleteJournalEntry` (storage.ts lines 100-102):
it deletes the row and nothing else — in particular it does NOT invoke
`updateUserStats`, unlike `createJournalEntry` and `updateJournalEntry`. -/
def deleteJournalEntry (db : DB) (id : String) : DB :=
  { db with entries := db.entries.filter fun e => e.id ≠ id }

/-- The two outcomes of the DELETE route relevant here. -/
inductive DeleteResponse where
  | notFound
  | ok
deriving DecidableEq

/-- Model of the DELETE /api/journal-entries/:id handler (routes.ts lines
393-410): ownership check, then `storage.deleteJournalEntry`, then respond. -/
def deleteJournalEntryRoute (db : DB) (userId entryId : String) : DB × DeleteResponse :=
  match getJournalEntry db entryId with
  | none => (db, .notFound)
  | some existing =>
    if existing.userId ≠ userId then (db, .notFound)
    else (deleteJournalEntry db entryId, .ok)

/-- The rows of `db.entries` owned by a user, i.e. the query at the top of
`updateUserStats`. -/
def userEntries (db : DB) (userId : String) : List JournalEntry :=
  db.entries.filter fun e => e.userId == userId

/-- The stored aggregate columns of a user row. -/
def lookupStats (db : DB) (userId : String) : Option UserStats :=
  (db.users.find? fun p => p.1 == userId).map fun p => p.2

/-! ### Weekly insight aggregator (server/routes.ts GET /api/insights/weekly) -/

/-- The truncated start of the current week, modelling
`weekStart.setDate(weekStart.getDate() - weekStart.getDay()); weekStart.setHours(0,0,0,0)`
zonelessly: back up by the day-of-week (epoch day 0 was a Thursday, hence the
offset 4) and truncate to midnight. -/
def startOfWeek (now : Int) : Int :=
  dayTrunc now - ((now / msPerDay + 4) % 7) * msPerDay

/-- `DatabaseStorage.getWeeklyInsight` (storage.ts lines 180-191): first row
matching user and week start. -/
def getWeeklyInsight (db : DB) (userId : String) (weekStart : Int) : Option WeeklyInsight :=
  db.insights.find? fun i => i.userId == userId && i.weekStart == weekStart

/-- `DatabaseStorage.deleteWeeklyInsight` (storage.ts lines 202-206). -/
def deleteWeeklyInsight (db : DB) (insightId : Nat) : DB :=
  { db with insights := db.insights.filter fun i => i.id ≠ insightId }

/-- `DatabaseStorage.createWeeklyInsight` (storage.ts lines 172-178): insert
with a fresh id and return the inserted row. -/
def createWeeklyInsight (db : DB) (data : InsertWeeklyInsight) : DB × WeeklyInsight :=
  let inserted : WeeklyInsight :=
    { id := db.nextInsightId
      userId := data.userId
      weekStart := data.weekStart
      weekEnd := data.weekEnd
      summary := data.summary
      keyThemes := data.keyThemes
      moodTrend := data.moodTrend
      averageSentiment := data.averageSentiment
      entryCount := data.entryCount }
  ({ db with insights := db.insights ++ [inserted], nextInsightId := db.nextInsightId + 1 },
   inserted)

/-- `DatabaseStorage.getJournalEntriesByDateRange` (storage.ts lines 126-138):
a user's rows with creation time inside the closed range, descending. -/
def getJournalEntriesByDateRange (db : DB) (userId : String) (startDate endDate : Int) :
    List JournalEntry :=
  sortByCreatedAtDesc
    (db.entries.filter fun e =>
      e.userId == userId && decide (startDate ≤ e.createdAt) && decide (e.createdAt ≤ endDate))

/-- The parsed JSON a successful Gemini weekly-insight call may return. -/
structure RawWeekly where
  insights : Option String
  moodTrend : Option String
  themes : Option (List String)
  recommendations : Option (List String)
deriving DecidableEq

/-- The `WeeklyInsightResult` interface of gemini.ts. -/
structure WeeklyInsightResult where
  insights : String
  moodTrend : String
  themes : List String
  recommendations : List String
deriving DecidableEq

/-- Model of `generateWeeklyInsight` (gemini.ts lines 174-237): empty input
short-circuits to a canned result without consulting the provider; otherwise a
provider failure is rethrown and a parsed response is field-defaulted. -/
def generateWeeklyInsight (entries : List JournalEntry) (provider : Except Unit RawWeekly) :
    Except Unit WeeklyInsightResult :=
  if entries.isEmpty then
    .ok
      { insights := "No entries this week to analyze."
        moodTrend := "No data"
        themes := []
        recommendations := ["Start journaling to track your progress!"] }
  else
    provider.map fun raw =>
      { insights := jsOrS raw.insights "Your journaling journey is developing beautifully."
        moodTrend := jsOrS raw.moodTrend "Stable"
        themes := raw.themes.getD []
        recommendations := raw.recommendations.getD ["Keep writing regularly to track your growth."] }

/-- The sentiment score the aggregator reads from a row:
`parseFloat(entry.sentimentScore || '0')`. -/
def scoreOf (e : JournalEntry) : ℚ := e.sentimentScore.getD 0

/-- One step of building the `moodCounts` object: JS object keys keep first
insertion order, so the table is an ordered association list. -/
def bumpMood (acc : List (String × Nat)) (k : String) : List (String × Nat) :=
  if (acc.find? fun p => p.1 == k).isSome then
    acc.map fun p => if p.1 == k then (p.1, p.2 + 1) else p
  else acc ++ [(k, 1)]

/-- The `completedEntries.reduce(...)` mood tally of the weekly route, keyed by
`entry.mood || 'neutral'`. -/
def moodCounts (l : List JournalEntry) : List (String × Nat) :=
  l.foldl (fun acc e => bumpMood acc (jsOrS e.mood "neutral")) []

/-- Count lookup in the tally (missing key reads as 0). -/
def lookupCount (m : List (String × Nat)) (k : String) : Nat :=
  ((m.find? fun p => p.1 == k).map fun p => p.2).getD 0

/-- `Object.keys(moodCounts).reduce((a, b) => moodCounts[a] > moodCounts[b] ? a : b)`:
fold over the keys from the first one. A JS reduce over an empty key set would
throw; that point is unreachable in the route (the tally of a non-empty entry
list is non-empty) and is modelled as the empty string. -/
def dominantMood (m : List (String × Nat)) : String :=
  match m.map fun p => p.1 with
  | [] => ""
  | k :: ks => ks.foldl (fun a b => if lookupCount m a > lookupCount m b then a else b) k

/-- JavaScript `Math.round`: round half toward positive infinity. -/
def jsRound (q : ℚ) : Int := Int.floor (q + 1 / 2)

/-- The templated summary of the weekly route's catch block. -/
def fallbackWeeklySummary (entryCount : Nat) (avgWordCount : Int) : String :=
  "You wrote " ++ toString entryCount ++ " entries this week with an average of " ++
    toString avgWordCount ++
    " words. Your journaling shows thoughtful reflection on your experiences."

/-- Model of the GET /api/insights/weekly handler (routes.ts lines 676-771).
`themesProv` and `weeklyProv` are the outcomes of the two provider calls made
during regeneration. The handler fetches the stored insight for the current
week and that week's completed entries; it regenerates (delete-then-recreate)
only when no insight is stored or the completed count exceeds the stored
`entryCount`, and only when there is at least one completed entry. On an AI
failure during regeneration the catch block builds the templated summary
instead. Returns the updated store and the insight sent to the client. -/
def weeklyInsightRoute (db : DB) (userId : String) (now : Int)
    (themesProv : Except Unit (Option (List String)))
    (weeklyProv : Except Unit RawWeekly) : DB × Option WeeklyInsight :=
  let weekStart := startOfWeek now
  let weekEnd := weekStart + 6 * msPerDay + (msPerDay - 1)
  let insight : Option WeeklyInsight := getWeeklyInsight db userId weekStart
  let weekEntries := getJournalEntriesByDateRange db userId weekStart weekEnd
  let completedEntries := weekEntries.filter fun e => e.isCompleted
  if insight.isNone ∨ completedEntries.length > ((insight.map fun i => i.entryCount.getD 0).getD 0) then
    if 0 < completedEntries.length then
      let generated : Except Unit WeeklyInsightResult := do
        let _ ← extractThemes (completedEntries.map fun e => e.content) themesProv
        generateWeeklyInsight completedEntries weeklyProv
      match generated with
      | .ok weeklyData =>
        let averageSentiment :=
          (completedEntries.foldl (fun sum e => sum + scoreOf e) 0) /
            (completedEntries.length : ℚ)
        let dmood := dominantMood (moodCounts completedEntries)
        let db1 := match insight with
          | some i => deleteWeeklyInsight db i.id
          | none => db
        let (db2, inserted) := createWeeklyInsight db1
          { userId := userId
            weekStart := weekStart
            weekEnd := weekEnd
            summary := weeklyData.insights
            keyThemes := weeklyData.themes
            moodTrend := dmood
            averageSentiment := averageSentiment
            entryCount := some completedEntries.length }
        (db2, some inserted)
      | .error _ =>
        let entryCount := completedEntries.length
        let avgWordCount :=
          jsRound ((completedEntries.foldl (fun sum e => sum + (e.wordCount.getD 0 : ℚ)) 0) /
            (entryCount : ℚ))
        let db1 := match insight with
          | some i => deleteWeeklyInsight db i.id
          | none => db
        let (db2, inserted) := createWeeklyInsight db1
          { userId := userId
            weekStart := weekStart
            weekEnd := weekEnd
            summary := fallbackWeeklySummary entryCount avgWordCount
            keyThemes := ["personal reflection", "self-awareness"]
            moodTrend := "Reflective"
            averageSentiment := 0
            entryCount := some entryCount }
        (db2, some inserted)
    else (db, insight)
  else (db, insight)

/-- The number of completed entries in the current week, as the weekly route
computes it. -/
def weekCompletedCount (db : DB) (userId : String) (now : Int) : Nat :=
  ((getJournalEntriesByDateRange db userId (startOfWeek now)
      (startOfWeek now + 6 * msPerDay + (msPerDay - 1))).filter fun e => e.isCompleted).length

instance {ε α : Type} [DecidableEq ε] [DecidableEq α] : DecidableEq (Except ε α) := fun a b =>
  match a, b with
  | .error x, .error y =>
    if h : x = y then .isTrue (by rw [h]) else .isFalse (by intro hh; cases hh; exact h rfl)
  | .error _, .ok _ => .isFalse (fun hh => Except.noConfusion hh)
  | .ok _, .error _ => .isFalse (fun hh => Except.noConfusion hh)
  | .ok x, .ok y =>
    if h : x = y then .isTrue (by rw [h]) else .isFalse (by intro hh; cases hh; exact h rfl)

/-! ### Concrete fixtures used by the claim theorems and witnesses -/

/-- A stored journal row with the given id, owner, creation instant, completion
flag and word count; content and derived fields empty. -/
def mkEntry (id userId : String) (createdAt : Int) (completed : Bool) (wordCount : Nat) :
    JournalEntry :=
  { id := id
    userId := userId
    content := ""
    wordCount := some wordCount
    sentimentScore := none
    sentimentLabel := none
    mood := none
    themes := none
    isCompleted := completed
    createdAt := createdAt }

/-- 2024-01-01T12:00Z in epoch milliseconds. -/
def jan1Noon : Int := 1704110400000

/-- 2024-01-02T12:00Z in epoch milliseconds. -/
def jan2Noon : Int := 1704196800000

/-- 2024-01-03T12:00Z in epoch milliseconds. -/
def jan3Noon : Int := 1704283200000

/-- 2024-01-03T18:00Z in epoch milliseconds, the "today" instant of the spec's
streak example. -/
def nowJan3 : Int := 1704304800000

/-- One completed entry on each of 2024-01-01, 2024-01-02 and 2024-01-03. -/
def threeDayEntries : List JournalEntry :=
  [mkEntry "e1" "u" jan1Noon true 20,
   mkEntry "e2" "u" jan2Noon true 20,
   mkEntry "e3" "u" jan3Noon true 20]

/-- Midnight of calendar day `k` (epoch days) in epoch milliseconds. -/
def dayStamp (k : Int) : Int := k * msPerDay

/-- Completed entries on the calendar days d+2, d+1, d+1, d (the middle day
duplicated), listed newest first. -/
def dupDayEntries (d : Int) : List JournalEntry :=
  [mkEntry "f1" "u" (dayStamp (d + 2)) true 10,
   mkEntry "f2" "u" (dayStamp (d + 1)) true 10,
   mkEntry "f3" "u" (dayStamp (d + 1)) true 10,
   mkEntry "f4" "u" (dayStamp d) true 10]

/-- One completed 5-word entry and one incomplete 7-word entry. -/
def mixedEntries : List JournalEntry :=
  [mkEntry "c1" "u" jan1Noon true 5, mkEntry "c2" "u" jan2Noon false 7]

/-- A store holding one completed entry of user "u" whose aggregate row is
consistent with it (as `createJournalEntry` would have left it). -/
def deleteFixtureDB : DB :=
  { entries := [mkEntry "e1" "u" jan1Noon true 5]
    users := [("u", updateUserStats [mkEntry "e1" "u" jan1Noon true 5] nowJan3)]
    insights := []
    nextInsightId := 0 }

/-- A 12-word content string. -/
def longContent : String :=
  "one two three four five six seven eight nine ten eleven twelve"

/-- A stored entry with short content, used as the PATCH target of the
provider-failure counterexample. -/
def patchTarget : JournalEntry :=
  { id := "p1"
    userId := "u"
    content := "old words here"
    wordCount := some 3
    sentimentScore := none
    sentimentLabel := none
    mood := none
    themes := none
    isCompleted := true
    createdAt := jan1Noon }

/-- A stored entry whose substantial content was analyzed: sentiment, mood and
themes are populated. -/
def enrichedEntry : JournalEntry :=
  { id := "p2"
    userId := "u"
    content := longContent
    wordCount := some 12
    sentimentScore := some 1
    sentimentLabel := some "positive"
    mood := some "happy"
    themes := some ["work"]
    isCompleted := true
    createdAt := jan1Noon }

/-- A PATCH body that only replaces the content by a 2-word string. -/
def shortPatchBody : UpdateData := { content := some "too short" }

/-- A POST body carrying the 12-word content and no derived fields. -/
def longPostBody : InsertEntry := { userId := "u", content := longContent }

/-- A POST body carrying a 2-word content and no derived fields. -/
def shortPostBody : InsertEntry := { userId := "u", content := "too short" }

/-- The stored weekly insight of the idempotence fixture: week of 2023-12-31,
one entry accounted for. -/
def weeklyFixtureInsight : WeeklyInsight :=
  { id := 0
    userId := "u"
    weekStart := 1703980800000
    weekEnd := 1703980800000 + 7 * 86400000 - 1
    summary := "a stored summary"
    keyThemes := ["personal reflection"]
    moodTrend := "Reflective"
    averageSentiment := 0
    entryCount := some 1 }

/-- A store holding that insight and exactly one completed entry in its week. -/
def weeklyFixtureDB : DB :=
  { entries := [mkEntry "e1" "u" jan1Noon true 5]
    users := []
    insights := [weeklyFixtureInsight]
    nextInsightId := 1 }

/-- Invariant of the streak walk used to bound `currentStreak`. `T` is the
truncated current day and `l` the entries still to be walked: the running
`currentStreak` never exceeds 1, and whenever a previous entry day `d` is
recorded, `d` does not exceed today, `d` is not today while `currentStreak` is
still 0, and `d` dominates the days of all remaining entries. -/
def streakInv (T : Int) (l : List JournalEntry) (st : StreakState) : Prop :=
  st.currentStreak ≤ 1 ∧
    ∀ d, st.lastDate = some d →
      d ≤ T ∧ (st.currentStreak = 0 → d ≠ T) ∧ ∀ e ∈ l, dayTrunc e.createdAt ≤ d

/-! ### Helper lemmas -/

/-- Day truncation is monotone. -/
theorem dayTrunc_mono {a b : Int} (h : a ≤ b) : dayTrunc a ≤ dayTrunc b := by
  unfold dayTrunc
  have hd := Int.ediv_le_ediv (show (0:Int) < msPerDay by norm_num [msPerDay]) h
  exact mul_le_mul_of_nonneg_left hd (by norm_num [msPerDay])

/-- A day difference that floors to exactly 1 is at least one whole day. -/
theorem msPerDay_le_of_ediv_eq_one {a : Int} (h : a / msPerDay = 1) : msPerDay ≤ a := by
  have hm := Int.ediv_add_emod a msPerDay
  have hr : 0 ≤ a % msPerDay := Int.emod_nonneg a (by norm_num [msPerDay])
  rw [h] at hm
  omega

/-- Folding an accumulator-plus-projection over a list is the starting value
plus the sum of the projections. -/
theorem foldl_add_map_sum (f : JournalEntry → Nat) (l : List JournalEntry) :
    ∀ n : Nat, l.foldl (fun sum e => sum + f e) n = n + (l.map f).sum := by
  induction l with
  | nil => simp
  | cons e l ih => intro n; simp [ih, Nat.add_assoc]

/-- Counting lexicon hits with the source's forEach-and-increment pattern is
the number of lexicon words occurring in the text: each word counts at most
once no matter how often it occurs. -/
theorem countMatches_eq_filter_length (text : List Char) (words : List String) :
    countMatches text words = (words.filter fun w => jsIncludes text w).length := by
  suffices h : ∀ (ws : List String) (n : Nat),
      ws.foldl (fun count w => if jsIncludes text w then count + 1 else count) n =
        n + (ws.filter fun w => jsIncludes text w).length by
    simpa [countMatches] using h words 0
  intro ws
  induction ws with
  | nil => simp
  | cons w ws ih =>
    intro n
    by_cases hw : jsIncludes text w <;> simp [hw, ih]
    omega

/-! ### Claim theorems -/

/-- C1: evaluating Statistics Recomputation at its failing input. The spec
claims that with one completed entry on each of 2024-01-01, 2024-01-02 and
2024-01-03 and "today" = 2024-01-03, `currentStreak = 3` is stored. The code
instead stores `currentStreak = 1` (and `longestStreak = 3`): the first walked
entry sets `currentStreak = 1`, after which the in-loop assignment
`currentStreak = streakCount` is unreachable because it is guarded by
`currentStreak === 0`. -/
theorem claim1_threeDayRun_eval :
    (updateUserStats threeDayEntries nowJan3).currentStreak = 1 ∧
      (updateUserStats threeDayEntries nowJan3).longestStreak = 3 := by
  decide

/-- C2: evaluating the deletion path at its failing input. `deleteJournalEntry`
performs only the row delete, so the DELETE route never updates the `users`
aggregates (first conjunct, for every store). Concretely: starting from a store
whose aggregates are consistent with its single completed entry, a successful
owner delete leaves the aggregates untouched, and they no longer equal the
recomputation over the remaining (empty) entry set — read-after-delete of user
aggregates is stale, contradicting the spec's requirement that deletion
triggers Statistics Recomputation before responding. -/
theorem claim2_delete_skips_stats_recompute :
    (∀ (db : DB) (userId entryId : String),
        ((deleteJournalEntryRoute db userId entryId).1).users = db.users) ∧
      (deleteJournalEntryRoute deleteFixtureDB "u" "e1").2 = DeleteResponse.ok ∧
      userEntries (deleteJournalEntryRoute deleteFixtureDB "u" "e1").1 "u" = [] ∧
      lookupStats (deleteJournalEntryRoute deleteFixtureDB "u" "e1").1 "u" ≠
        some (updateUserStats
          (userEntries (deleteJournalEntryRoute deleteFixtureDB "u" "e1").1 "u") nowJan3) := by
  refine ⟨?_, by decide, by decide, by decide⟩
  intro db userId entryId
  unfold deleteJournalEntryRoute
  rcases h : getJournalEntry db entryId with _ | e
  · rfl
  · by_cases hu : e.userId ≠ userId <;> simp [hu, deleteJournalEntry]

/-- C4 counterexample: `updateUserStats` computes `wordsWritten` by reducing
over ALL of the user's entries, not the completed-only set. With one completed
5-word entry and one incomplete 7-word entry it stores 12, while the sum over
the completed set is 5. -/
theorem claim4_counterexample :
    (updateUserStats mixedEntries nowJan3).wordsWritten = 12 ∧
      (((mixedEntries.filter fun e => e.isCompleted).map fun e => e.wordCount.getD 0).sum = 5) ∧
      (updateUserStats mixedEntries nowJan3).wordsWritten ≠
        ((mixedEntries.filter fun e => e.isCompleted).map fun e => e.wordCount.getD 0).sum := by
  decide

/-- C4 amended: for every entry history, `totalEntries` counts exactly the
completed entries, but `wordsWritten` is the sum of `wordCount` over ALL
entries — incomplete entries contribute their word counts too. -/
theorem claim4_amended (entries : List JournalEntry) (now : Int) :
    (updateUserStats entries now).wordsWritten =
        ((entries.map fun e => e.wordCount.getD 0).sum) ∧
      (updateUserStats entries now).totalEntries =
        (entries.filter fun e => e.isCompleted).length := by
  refine ⟨?_, rfl⟩
  show entries.foldl (fun sum e => sum + e.wordCount.getD 0) 0 = _
  simp [foldl_add_map_sum]

/-- C6 counterexample: `detectMoodFromKeywords "I am stressed and anxious"`
does not return "anxious". -/
theorem claim6_counterexample :
    detectMoodFromKeywords "I am stressed and anxious" ≠ "anxious" := by
  decide

/-- C6 amended: on "I am stressed and anxious" the negative lexicon matches
twice ("stressed" and "anxious") while the positive and neutral lexicons match
zero times, so the negative-majority rule fires first and the classifier
returns "negative" — the "anxious" rule is reachable only when the negative
count fails to strictly exceed the neutral count. -/
theorem claim6_amended :
    detectMoodFromKeywords "I am stressed and anxious" = "negative" ∧
      countMatches (lowerCase "I am stressed and anxious") negativeWords = 2 ∧
      countMatches (lowerCase "I am stressed and anxious") positiveWords = 0 ∧
      countMatches (lowerCase "I am stressed and anxious") neutralWords = 0 := by
  decide

/-- C10: keyword mood classification matches lexicon words by substring
containment over the lowercased text, counting each lexicon word at most once
(the count is the number of lexicon words contained in the text); consequently
"unhappy" is classified "positive" purely because it contains the positive
keyword "happy" while matching no negative or neutral keyword. -/
theorem claim10_substring_mood :
    detectMoodFromKeywords "unhappy" = "positive" ∧
      jsIncludes (lowerCase "unhappy") "happy" = true ∧
      countMatches (lowerCase "unhappy") negativeWords = 0 ∧
      countMatches (lowerCase "unhappy") neutralWords = 0 ∧
      (∀ (text : List Char) (words : List String),
        countMatches text words = (words.filter fun w => jsIncludes text w).length) :=
  ⟨by decide, by decide, by decide, by decide, countMatches_eq_filter_length⟩

/-- Preservation of `streakInv` through the walk: folding `streakStep` over a
descending-sorted list of entries whose days do not exceed today keeps
`currentStreak` at most 1. -/
theorem foldl_streakStep_le_one (now : Int) :
    ∀ (l : List JournalEntry) (st : StreakState),
      (∀ e ∈ l, dayTrunc e.createdAt ≤ dayTrunc now) →
      l.Pairwise createdDescRel →
      streakInv (dayTrunc now) l st →
      (l.foldl (streakStep now) st).currentStreak ≤ 1 := by
  intro l
  induction l with
  | nil => exact fun st _ _ hinv => hinv.1
  | cons e l ih =>
    intro st hdays hpw hinv
    obtain ⟨hcs, hlast⟩ := hinv
    have hx : dayTrunc e.createdAt ≤ dayTrunc now := hdays e (List.mem_cons_self e l)
    have hdom : ∀ e' ∈ l, dayTrunc e'.createdAt ≤ dayTrunc e.createdAt := by
      intro e' he'
      exact dayTrunc_mono ((List.pairwise_cons.mp hpw).1 e' he')
    rw [List.foldl_cons]
    apply ih
    · exact fun e' he' => hdays e' (List.mem_cons_of_mem e he')
    · exact (List.pairwise_cons.mp hpw).2
    · -- the step preserves the invariant
      cases hld : st.lastDate with
      | none =>
        simp only [streakStep, hld]
        constructor
        · dsimp only
          split
          · exact le_refl 1
          · exact hcs
        · intro d hd
          dsimp only at hd
          injection hd with hd
          subst hd
          refine ⟨hx, ?_, hdom⟩
          intro h0
          dsimp only at h0
          split at h0
          · exact absurd h0 one_ne_zero
          · rename_i hcond
            intro hT
            exact hcond (Or.inl hT)
      | some last =>
        obtain ⟨hlT, hlne, hldom⟩ := hlast last hld
        have hxl : dayTrunc e.createdAt ≤ last := hldom e (List.mem_cons_self e l)
        simp only [streakStep, hld]
        by_cases hdd : (last - dayTrunc e.createdAt) / msPerDay = 1
        · have hge : msPerDay ≤ last - dayTrunc e.createdAt := msPerDay_le_of_ediv_eq_one hdd
        -- the guarded assignment cannot fire: an anchored extension would need
        -- the previous day to exceed today, or to be today with the streak unset
          have hguard :
              ¬(st.currentStreak = 0 ∧
                (isToday now (dayTrunc e.createdAt) ∨ isYesterday now (dayTrunc e.createdAt))) := by
            rintro ⟨h0, hty | hty⟩
            · rw [isToday] at hty
              rw [hty] at hge
              have : last ≤ dayTrunc now := hlT
              have hpos : (0:Int) < msPerDay := by norm_num [msPerDay]
              omega
            · rw [isYesterday] at hty
              rw [hty] at hge
              have : last = dayTrunc now := by omega
              exact hlne h0 this
          simp only [if_pos hdd, if_neg hguard]
          refine ⟨hcs, ?_⟩
          intro d hd
          injection hd with hd
          subst hd
          refine ⟨hx, ?_, hdom⟩
          intro h0 hT
          rw [hT] at hge
          have : last ≤ dayTrunc now := hlT
          have hpos : (0:Int) < msPerDay := by norm_num [msPerDay]
          omega
        · simp only [if_neg hdd]
          refine ⟨hcs, ?_⟩
          intro d hd
          injection hd with hd
          subst hd
          refine ⟨hx, ?_, hdom⟩
          intro h0 hT
          have hlastT : last = dayTrunc now := le_antisymm hlT (hT ▸ hxl)
          exact hlne h0 hlastT

/-- C8: for every entry history in which no completed entry's calendar day lies
after today's, Statistics Recomputation stores `currentStreak` equal to 0 or 1,
regardless of the length of the actual consecutive-day run: the walk sets
`currentStreak = 1` at the first (most recent) entry when it is anchored at
today/yesterday, and the in-loop extension is dead because it requires
`currentStreak` to still be 0. -/
theorem claim8_currentStreak_le_one (entries : List JournalEntry) (now : Int)
    (h : ∀ e ∈ entries, e.isCompleted = true → dayTrunc e.createdAt ≤ dayTrunc now) :
    (updateUserStats entries now).currentStreak = 0 ∨
      (updateUserStats entries now).currentStreak = 1 := by
  have key :
      (streakWalk now (sortByCreatedAtDesc (entries.filter fun e => e.isCompleted))).currentStreak
        ≤ 1 := by
    apply foldl_streakStep_le_one
    · intro e he
      have hmem : e ∈ entries.filter fun e => e.isCompleted :=
        (List.perm_insertionSort createdDescRel _).subset he
      have hm := List.mem_filter.mp hmem
      exact h e hm.1 hm.2
    · exact List.sorted_insertionSort createdDescRel _
    · exact ⟨Nat.zero_le 1, fun d hd => by simp [initStreak] at hd⟩
  have heq :
      (updateUserStats entries now).currentStreak =
        (streakWalk now (sortByCreatedAtDesc (entries.filter fun e => e.isCompleted))).currentStreak :=
    rfl
  rw [heq]
  exact Nat.le_one_iff_eq_zero_or_eq_one.mp key

/-- C8 witness: the three-consecutive-day history with "today" = 2024-01-03
satisfies the day bound, and the theorem yields that its stored
`currentStreak` is 0 or 1. -/
theorem claim8_witness :
    (∀ e ∈ threeDayEntries, e.isCompleted = true → dayTrunc e.createdAt ≤ dayTrunc nowJan3) ∧
      ((updateUserStats threeDayEntries nowJan3).currentStreak = 0 ∨
        (updateUserStats threeDayEntries nowJan3).currentStreak = 1) :=
  ⟨by decide, claim8_currentStreak_le_one threeDayEntries nowJan3 (by decide)⟩

/-- Day-aligned timestamps truncate to themselves. -/
theorem dayTrunc_dayStamp (k : Int) : dayTrunc (dayStamp k) = dayStamp k := by
  unfold dayTrunc dayStamp
  rw [Int.mul_ediv_cancel _ (by norm_num [msPerDay])]
  ring

/-- The floored day difference of two day-aligned timestamps is the difference
of their day numbers. -/
theorem dayStamp_diff (a b : Int) : (dayStamp a - dayStamp b) / msPerDay = a - b := by
  unfold dayStamp
  rw [← sub_mul, Int.mul_ediv_cancel _ (by norm_num [msPerDay])]

/-- The duplicated-day fixture is already descending by creation time. -/
theorem dupDayEntries_sorted (d : Int) : List.Pairwise createdDescRel (dupDayEntries d) := by
  have hmono : ∀ a b : Int, a ≤ b → dayStamp a ≤ dayStamp b := fun a b h =>
    mul_le_mul_of_nonneg_right h (by norm_num [msPerDay])
  simp only [dupDayEntries, List.pairwise_cons, List.mem_cons, List.not_mem_nil,
    or_false, createdDescRel]
  refine ⟨?_, ?_, ?_, ?_, ?_⟩
  · rintro e (rfl | rfl | rfl) <;> exact hmono _ _ (by omega)
  · rintro e (rfl | rfl) <;> exact hmono _ _ (by omega)
  · rintro e rfl
    exact hmono _ _ (by omega)
  · intro e he
    cases he
  · exact List.Pairwise.nil

/-- C9: two completed entries on the same calendar day take the run-broken
branch of the streak walk (a zero day difference is not 1), which records the
run so far and restarts the count; hence for completed entries on days
d, d+1, d+1, d+2 (the middle day duplicated), the stored `longestStreak` is 2,
not 3 — for every choice of the base day d. -/
theorem claim9_duplicate_day_longestStreak (d : Int) :
    (updateUserStats (dupDayEntries d) (dayStamp (d + 2))).longestStreak = 2 := by
  have hall : (dupDayEntries d).filter (fun e => e.isCompleted) = dupDayEntries d := by
    simp [dupDayEntries, mkEntry]
  have hsort : sortByCreatedAtDesc (dupDayEntries d) = dupDayEntries d :=
    List.Sorted.insertionSort_eq (dupDayEntries_sorted d)
  have h1 :
      streakStep (dayStamp (d + 2)) initStreak (mkEntry "f1" "u" (dayStamp (d + 2)) true 10) =
        ⟨1, 0, 1, some (dayStamp (d + 2))⟩ := by
    simp [streakStep, initStreak, mkEntry, dayTrunc_dayStamp, isToday]
  have hd21 : (dayStamp (d + 2) - dayStamp (d + 1)) / msPerDay = 1 := by
    rw [dayStamp_diff]; ring
  have h2 :
      streakStep (dayStamp (d + 2)) ⟨1, 0, 1, some (dayStamp (d + 2))⟩
          (mkEntry "f2" "u" (dayStamp (d + 1)) true 10) =
        ⟨1, 0, 2, some (dayStamp (d + 1))⟩ := by
    simp [streakStep, mkEntry, dayTrunc_dayStamp, hd21]
  have hd11 : (dayStamp (d + 1) - dayStamp (d + 1)) / msPerDay = 0 := by
    simp
  have h3 :
      streakStep (dayStamp (d + 2)) ⟨1, 0, 2, some (dayStamp (d + 1))⟩
          (mkEntry "f3" "u" (dayStamp (d + 1)) true 10) =
        ⟨1, 2, 1, some (dayStamp (d + 1))⟩ := by
    simp [streakStep, mkEntry, dayTrunc_dayStamp, hd11]
  have hd10 : (dayStamp (d + 1) - dayStamp d) / msPerDay = 1 := by
    rw [dayStamp_diff]; ring
  have h4 :
      streakStep (dayStamp (d + 2)) ⟨1, 2, 1, some (dayStamp (d + 1))⟩
          (mkEntry "f4" "u" (dayStamp d) true 10) =
        ⟨1, 2, 2, some (dayStamp d)⟩ := by
    simp [streakStep, mkEntry, dayTrunc_dayStamp, hd10]
  have hwalk :
      streakWalk (dayStamp (d + 2)) (dupDayEntries d) = ⟨1, 2, 2, some (dayStamp d)⟩ := by
    simp only [streakWalk, dupDayEntries, List.foldl_cons, List.foldl_nil, h1, h2, h3, h4]
  show max (streakWalk (dayStamp (d + 2))
      (sortByCreatedAtDesc ((dupDayEntries d).filter fun e => e.isCompleted))).longestStreak
    (streakWalk (dayStamp (d + 2))
      (sortByCreatedAtDesc ((dupDayEntries d).filter fun e => e.isCompleted))).streakCount = 2
  rw [hall, hsort, hwalk]
  rfl

/-- C3 counterexample: on the edit path with changed content of more than 10
words, a provider failure is NOT resolved by any fallback — it propagates out
of the PATCH handler, so the edit fails instead of succeeding with degraded
analysis. -/
theorem claim3_counterexample :
    patchJournalEntry patchTarget { content := some longContent } (.error ()) =
      .error () := by
  decide

/-- C3 amended: the two persist paths handle provider failure differently. On
entry submission (POST), a failure of EITHER AI call — the sentiment analysis
itself, or the subsequent theme extraction (whose catch overwrites any
sentiment fields already set) — is caught at the call site and resolved via the
fallback analyzer, so the create succeeds with keyword-classified mood, zero
score, the mood echoed as label and empty themes. On the edit path (content
changed, more than 10 words), `analyzeSentiment` has no surrounding try/catch,
so a provider failure aborts the update and surfaces to the caller. -/
theorem claim3_amended :
    (∀ (body : InsertEntry) (recent : List String) (sentProv : Except Unit RawSentiment)
        (themesProv : Except Unit (Option (List String))) (newId : String) (now : Int),
      10 < countWords body.content →
      sentProv = .error () ∨ themesProv = .error () →
        (postJournalEntry body recent sentProv themesProv newId now).mood =
            some (detectMoodFromKeywords body.content) ∧
          (postJournalEntry body recent sentProv themesProv newId now).sentimentScore =
            some 0 ∧
          (postJournalEntry body recent sentProv themesProv newId now).sentimentLabel =
            some (detectMoodFromKeywords body.content) ∧
          (postJournalEntry body recent sentProv themesProv newId now).themes = some []) ∧
      (∀ (existing : JournalEntry) (body : UpdateData) (c : String),
        body.content = some c → c ≠ "" → 10 < countWords c → c ≠ existing.content →
          patchJournalEntry existing body (.error ()) = .error ()) := by
  constructor
  · intro body recent sentProv themesProv newId now hwc hfail
    rcases hfail with rfl | rfl
    · simp [postJournalEntry, analyzeSentiment, fallbackEnrich, materializeEntry, hwc]
    · cases sentProv with
      | error e =>
        simp [postJournalEntry, analyzeSentiment, fallbackEnrich, materializeEntry, hwc]
      | ok raw =>
        simp [postJournalEntry, analyzeSentiment, extractThemes, Except.map, fallbackEnrich,
          materializeEntry, hwc]
  · intro existing body c hc hne hwc hdiff
    simp [patchJournalEntry, analyzeSentiment, Except.map, hc, hne, hwc, hdiff]

/-- C3 witness: the amended theorem applied to the 12-word body, once with the
sentiment call failing and once with the sentiment call succeeding but theme
extraction failing, and to the 12-word changed patch on a short stored entry. -/
theorem claim3_witness :
    (10 < countWords longPostBody.content) ∧
      (postJournalEntry longPostBody [] (.error ()) (.ok none) "n1" 0).mood =
        some (detectMoodFromKeywords longPostBody.content) ∧
      (postJournalEntry longPostBody [] (.ok ⟨some 1, some "positive", some "happy", some 1⟩)
          (.error ()) "n1" 0).mood = some (detectMoodFromKeywords longPostBody.content) ∧
      (postJournalEntry longPostBody [] (.ok ⟨some 1, some "positive", some "happy", some 1⟩)
          (.error ()) "n1" 0).sentimentScore = some 0 ∧
      (longContent ≠ patchTarget.content) ∧
      patchJournalEntry patchTarget { content := some longContent, mood := some "calm" }
          (.error ()) = .error () :=
  ⟨by decide,
   (claim3_amended.1 longPostBody [] (.error ()) (.ok none) "n1" 0 (by decide)
      (Or.inl rfl)).1,
   (claim3_amended.1 longPostBody [] (.ok ⟨some 1, some "positive", some "happy", some 1⟩)
      (.error ()) "n1" 0 (by decide) (Or.inr rfl)).1,
   (claim3_amended.1 longPostBody [] (.ok ⟨some 1, some "positive", some "happy", some 1⟩)
      (.error ()) "n1" 0 (by decide) (Or.inr rfl)).2.1,
   by decide,
   claim3_amended.2 patchTarget { content := some longContent, mood := some "calm" }
     longContent rfl (by decide) (by decide) (by decide)⟩

/-- C5 counterexample: editing an entry whose analysis fields are populated
down to 2-word content leaves those fields populated. The persisted row has
`wordCount = 2 ≤ 10` yet `mood`, `sentimentScore`, `sentimentLabel` and
`themes` all remain set, because the PATCH path only skips re-analysis — it
never clears previously derived fields. -/
theorem claim5_counterexample :
    patchJournalEntry enrichedEntry shortPatchBody (.error ()) =
        .ok { enrichedEntry with content := "too short", wordCount := some 2 } ∧
      countWords "too short" ≤ 10 ∧
      (JournalEntry.mood { enrichedEntry with content := "too short", wordCount := some 2 } =
        some "happy") ∧
      (JournalEntry.sentimentScore
          { enrichedEntry with content := "too short", wordCount := some 2 } = some 1) := by
  decide

/-- C5 amended: with at-most-10-word content, derived fields are never
written — so on create (with a request body that does not itself carry derived
fields) they end up unset, while on edit they retain whatever values the
stored row already had (unset only if previously unset). -/
theorem claim5_amended :
    (∀ (body : InsertEntry) (recent : List String) (sentProv : Except Unit RawSentiment)
        (themesProv : Except Unit (Option (List String))) (newId : String) (now : Int),
      countWords body.content ≤ 10 →
      body.sentimentScore = none → body.sentimentLabel = none →
      body.mood = none → body.themes = none →
        (postJournalEntry body recent sentProv themesProv newId now).sentimentScore = none ∧
          (postJournalEntry body recent sentProv themesProv newId now).sentimentLabel = none ∧
          (postJournalEntry body recent sentProv themesProv newId now).mood = none ∧
          (postJournalEntry body recent sentProv themesProv newId now).themes = none) ∧
      (∀ (existing : JournalEntry) (body : UpdateData) (c : String)
          (sentProv : Except Unit RawSentiment),
        body.content = some c → countWords c ≤ 10 →
        body.sentimentScore = none → body.sentimentLabel = none →
        body.mood = none → body.themes = none →
          (patchJournalEntry existing body sentProv).map
              (fun e => (e.sentimentScore, e.sentimentLabel, e.mood, e.themes)) =
            .ok (existing.sentimentScore, existing.sentimentLabel,
              existing.mood, existing.themes)) := by
  constructor
  · intro body recent sentProv themesProv newId now hwc hss hsl hm ht
    have hlt : ¬(10 < countWords body.content) := not_lt.mpr hwc
    simp [postJournalEntry, materializeEntry, hlt, hss, hsl, hm, ht]
  · intro existing body c sentProv hc hwc hss hsl hm ht
    have hlt : ¬(10 < countWords c ∧ c ≠ existing.content) := by
      rintro ⟨h10, _⟩
      exact not_lt.mpr hwc h10
    by_cases hce : c = ""
    · simp [patchJournalEntry, applyUpdate, Except.map, hc, hce, hss, hsl, hm, ht]
    · simp [patchJournalEntry, applyUpdate, Except.map, hc, hce, hlt, hss, hsl, hm, ht]

/-- C5 witness: the amended theorem applied to a 2-word create body and to the
2-word patch of the enriched stored entry. -/
theorem claim5_witness :
    (countWords shortPostBody.content ≤ 10) ∧
      (postJournalEntry shortPostBody [] (.error ()) (.ok none) "n2" 0).mood = none ∧
      (patchJournalEntry enrichedEntry shortPatchBody (.ok ⟨none, none, none, none⟩)).map
          (fun e => (e.sentimentScore, e.sentimentLabel, e.mood, e.themes)) =
        .ok (enrichedEntry.sentimentScore, enrichedEntry.sentimentLabel,
          enrichedEntry.mood, enrichedEntry.themes) :=
  ⟨by decide,
   (claim5_amended.1 shortPostBody [] (.error ()) (.ok none) "n2" 0 (by decide) rfl rfl rfl
      rfl).2.2.1,
   claim5_amended.2 enrichedEntry shortPatchBody "too short" (.ok ⟨none, none, none, none⟩)
     rfl (by decide) rfl rfl rfl rfl⟩

/-- C7: the Weekly Insight Aggregator is idempotent when no new completed
entries arrived. Whenever an insight is stored for the user's current week and
the week's completed-entry count does not exceed its stored `entryCount`, the
route returns the stored insight and leaves the store untouched (no delete, no
recreate, regardless of provider outcomes), and a second request — with any
provider outcomes — returns the very same stored insight again. -/
theorem claim7_weekly_idempotent (db : DB) (userId : String) (now : Int)
    (tp tp2 : Except Unit (Option (List String))) (wp wp2 : Except Unit RawWeekly)
    (ins : WeeklyInsight)
    (h1 : getWeeklyInsight db userId (startOfWeek now) = some ins)
    (h2 : weekCompletedCount db userId now ≤ ins.entryCount.getD 0) :
    weeklyInsightRoute db userId now tp wp = (db, some ins) ∧
      weeklyInsightRoute (weeklyInsightRoute db userId now tp wp).1 userId now tp2 wp2 =
        (db, some ins) := by
  unfold weekCompletedCount at h2
  have hnot :
      ¬(((getJournalEntriesByDateRange db userId (startOfWeek now)
            (startOfWeek now + 6 * msPerDay + (msPerDay - 1))).filter
          fun e => e.isCompleted).length > ins.entryCount.getD 0) :=
    not_lt.mpr h2
  have main : ∀ (tpx : Except Unit (Option (List String))) (wpx : Except Unit RawWeekly),
      weeklyInsightRoute db userId now tpx wpx = (db, some ins) := by
    intro tpx wpx
    simp only [weeklyInsightRoute, h1, Option.isNone_some, Option.map_some, Option.getD_some,
      Bool.false_eq_true, false_or, gt_iff_lt]
    rw [if_neg]
    exact hnot
  exact ⟨main tp wp, by rw [main tp wp]; exact main tp2 wp2⟩

/-- C7 witness: the idempotence theorem applied to a store holding one weekly
insight accounting for the single completed entry of its week. -/
theorem claim7_witness :
    getWeeklyInsight weeklyFixtureDB "u" (startOfWeek jan1Noon) = some weeklyFixtureInsight ∧
      weekCompletedCount weeklyFixtureDB "u" jan1Noon ≤ weeklyFixtureInsight.entryCount.getD 0 ∧
      weeklyInsightRoute weeklyFixtureDB "u" jan1Noon (.error ()) (.error ()) =
        (weeklyFixtureDB, some weeklyFixtureInsight) :=
  ⟨by decide, by decide,
   (claim7_weekly_idempotent weeklyFixtureDB "u" jan1Noon (.error ()) (.ok none) (.error ())
      (.ok ⟨none, none, none, none⟩) weeklyFixtureInsight (by decide) (by decide)).1⟩

end MindfulPages
